import Mathlib

/-!
# NutriLens AI — verification of the analysis pipeline

Shallow embedding of the core analysis pipeline of the NutriLens
repository (food recognition, confidence filtering, nutrition estimation,
aggregation, reflection, habit nudges, evaluation, and the `/api/analyze`
route orchestration).

Numbers are embedded as rationals (`ℚ`).  The generative inference
collaborator is external to the core: each agent's network call together
with its JSON decoding is modelled as an oracle value (an `Except` carrying
the already-decoded record list on success), and the sanitization that the
agents apply to the decoded records is translated literally from the
source.  JavaScript's `x || d` defaulting is translated faithfully: it
replaces every falsy value, so an absent field, an empty string, `false`
and the number `0` all trigger the default.
-/

namespace NutriLens

/-- A recognized food item, as produced by `recognizeFood`
(`foodRecognitionAgent.ts`, interface `FoodItem` in `types.ts`). -/
structure FoodItem where
  name : String
  confidence : ℚ
  category : String
  portionSize : Option String
  preparationMethod : Option String
  deriving Repr, DecidableEq

/-- A raw food item as decoded from the collaborator's JSON, before the
sanitization in `recognizeFood`; every field may be absent. -/
structure RawFoodItem where
  name : Option String
  confidence : Option ℚ
  category : Option String
  portionSize : Option String
  preparationMethod : Option String
  deriving Repr, DecidableEq

/-- JavaScript `x || d` on an optional string: absent and empty strings are
falsy and replaced by the default. -/
def strOrDefault (x : Option String) (d : String) : String :=
  match x with
  | none => d
  | some s => if s = "" then d else s

/-- JavaScript `x || d` on an optional number: absent and `0` are falsy and
replaced by the default. -/
def numOrDefault (x : Option ℚ) (d : ℚ) : ℚ :=
  match x with
  | none => d
  | some r => if r = 0 then d else r

/-- Per-item sanitization of `recognizeFood` (`foodRecognitionAgent.ts`):
`name || 'Unknown food'`, `Math.max(0, Math.min(1, confidence || 0))`,
`category || 'unknown'`; portion size and preparation method pass through. -/
def sanitizeFoodItem (r : RawFoodItem) : FoodItem :=
  { name := strOrDefault r.name "Unknown food"
    confidence := max 0 (min 1 (numOrDefault r.confidence 0))
    category := strOrDefault r.category "unknown"
    portionSize := r.portionSize
    preparationMethod := r.preparationMethod }

/-- `recognizeFood` after the collaborator's JSON has been decoded: maps the
sanitization over every decoded item (no item is dropped here). -/
def recognizeFood (raws : List RawFoodItem) : List FoodItem :=
  raws.map sanitizeFoodItem

/-- Output record of `recognizeFoodWithValidation`. -/
structure FilterOutput where
  recognizedItems : List FoodItem
  lowConfidenceItems : List FoodItem
  warnings : List String
  deriving Repr, DecidableEq

/-- The pure part of `recognizeFoodWithValidation`
(`foodRecognitionAgent.ts`): partitions `allItems` by
`confidence >= minConfidence` and computes the three warnings. -/
def confidenceFilter (allItems : List FoodItem) (minConfidence : ℚ) :
    FilterOutput :=
  let recognizedItems := allItems.filter (fun item => minConfidence ≤ item.confidence)
  let lowConfidenceItems := allItems.filter (fun item => item.confidence < minConfidence)
  let w1 : List String :=
    if lowConfidenceItems.length > 0 then
      [toString lowConfidenceItems.length ++
        " food item(s) detected with low confidence. Results may be less accurate."]
    else []
  let w2 : List String :=
    if recognizedItems.length = 0 ∧ allItems.length > 0 then
      ["All detected items have low confidence. Consider uploading a clearer image."]
    else []
  let w3 : List String :=
    if allItems.length = 0 then ["No food items detected in the image."] else []
  { recognizedItems := recognizedItems
    lowConfidenceItems := lowConfidenceItems
    warnings := w1 ++ w2 ++ w3 }

/-- Calorie range of a `NutritionEstimate` (`types.ts`): min, max and a
confidence on the calorie estimate. -/
structure CalorieRange where
  min : ℚ
  max : ℚ
  confidence : ℚ
  deriving Repr, DecidableEq

/-- Macro range (protein / carbs / fat / fiber) of a `NutritionEstimate`
(`types.ts`): min, max and a unit string. -/
structure MacroRange where
  min : ℚ
  max : ℚ
  unit : String
  deriving Repr, DecidableEq

/-- Raw macro range as decoded from JSON; the unit may be absent. -/
structure RawMacroRange where
  min : ℚ
  max : ℚ
  unit : Option String
  deriving Repr, DecidableEq

/-- Raw nutrition estimate as decoded from the collaborator's JSON in
`estimateNutrition`, before the "Validate ranges" map. -/
structure RawNutritionEstimate where
  foodItem : String
  calories : CalorieRange
  protein : RawMacroRange
  carbs : RawMacroRange
  fat : RawMacroRange
  fiber : Option RawMacroRange
  variabilityFactors : Option (List String)
  deriving Repr, DecidableEq

/-- Sanitized nutrition estimate (`types.ts` `NutritionEstimate`).  The
`fiber` field is spread through `estimateNutrition`'s sanitization
unchanged, so it keeps its raw shape here. -/
structure NutritionEstimate where
  foodItem : String
  calories : CalorieRange
  protein : MacroRange
  carbs : MacroRange
  fat : MacroRange
  fiber : Option RawMacroRange
  variabilityFactors : List String
  deriving Repr, DecidableEq

/-- Per-item "Validate ranges" map of `estimateNutrition`
(`nutritionEstimationAgent.ts` lines 123-146), translated literally:
for calories/protein/carbs/fat, `min' = Math.max(0, min)` and
`max' = Math.max(min, max)` (the floor uses the *raw* min), calorie
confidence clamped to `[0,1]`, `unit || 'g'`,
`variabilityFactors || []`; `fiber` rides along via the object spread
`...est` and is not touched. -/
def sanitizeEstimate (est : RawNutritionEstimate) : NutritionEstimate :=
  { foodItem := est.foodItem
    calories :=
      { min := max 0 est.calories.min
        max := max est.calories.min est.calories.max
        confidence := max 0 (min 1 est.calories.confidence) }
    protein :=
      { min := max 0 est.protein.min
        max := max est.protein.min est.protein.max
        unit := strOrDefault est.protein.unit "g" }
    carbs :=
      { min := max 0 est.carbs.min
        max := max est.carbs.min est.carbs.max
        unit := strOrDefault est.carbs.unit "g" }
    fat :=
      { min := max 0 est.fat.min
        max := max est.fat.min est.fat.max
        unit := strOrDefault est.fat.unit "g" }
    fiber := est.fiber
    variabilityFactors := est.variabilityFactors.getD [] }

/-- `estimateNutrition` after the collaborator's JSON has been decoded:
maps the range sanitization over every decoded estimate. -/
def estimateNutrition (raws : List RawNutritionEstimate) : List NutritionEstimate :=
  raws.map sanitizeEstimate

/-- A plain min/max pair, the shape of the totals returned by
`calculateTotalNutrition`. -/
structure TotalRange where
  min : ℚ
  max : ℚ
  deriving Repr, DecidableEq

/-- Return record of `calculateTotalNutrition`. -/
structure TotalNutrition where
  totalCalories : TotalRange
  totalProtein : TotalRange
  totalCarbs : TotalRange
  totalFat : TotalRange
  averageConfidence : ℚ
  deriving Repr, DecidableEq

/-- Accumulator of the `reduce` inside `calculateTotalNutrition`. -/
structure TotalsAcc where
  caloriesMin : ℚ
  caloriesMax : ℚ
  proteinMin : ℚ
  proteinMax : ℚ
  carbsMin : ℚ
  carbsMax : ℚ
  fatMin : ℚ
  fatMax : ℚ
  confidenceSum : ℚ
  deriving Repr, DecidableEq

/-- One step of the `reduce` inside `calculateTotalNutrition`. -/
def totalsStep (acc : TotalsAcc) (est : NutritionEstimate) : TotalsAcc :=
  { caloriesMin := acc.caloriesMin + est.calories.min
    caloriesMax := acc.caloriesMax + est.calories.max
    proteinMin := acc.proteinMin + est.protein.min
    proteinMax := acc.proteinMax + est.protein.max
    carbsMin := acc.carbsMin + est.carbs.min
    carbsMax := acc.carbsMax + est.carbs.max
    fatMin := acc.fatMin + est.fat.min
    fatMax := acc.fatMax + est.fat.max
    confidenceSum := acc.confidenceSum + est.calories.confidence }

/-- `calculateTotalNutrition` (`nutritionEstimationAgent.ts` lines
190-232): left fold of `totalsStep` from the all-zero accumulator, then
`averageConfidence = confidenceSum / length` when the list is non-empty
and `0` otherwise. -/
def calculateTotalNutrition (estimates : List NutritionEstimate) : TotalNutrition :=
  let totals := estimates.foldl totalsStep
    { caloriesMin := 0, caloriesMax := 0, proteinMin := 0, proteinMax := 0
      carbsMin := 0, carbsMax := 0, fatMin := 0, fatMax := 0, confidenceSum := 0 }
  { totalCalories := { min := totals.caloriesMin, max := totals.caloriesMax }
    totalProtein := { min := totals.proteinMin, max := totals.proteinMax }
    totalCarbs := { min := totals.carbsMin, max := totals.carbsMax }
    totalFat := { min := totals.fatMin, max := totals.fatMax }
    averageConfidence :=
      if estimates.length > 0 then totals.confidenceSum / estimates.length else 0 }

/-- Raw reflection prompt as decoded from the collaborator's JSON in
`generateReflectionPrompts`; category and relevance may be absent. -/
structure RawReflectionPrompt where
  question : String
  category : Option String
  relevance : Option ℚ
  deriving Repr, DecidableEq

/-- Sanitized reflection prompt (`types.ts` `ReflectionPrompt`, with the
category kept as the string the code actually stores). -/
structure ReflectionPrompt where
  question : String
  category : String
  relevance : ℚ
  deriving Repr, DecidableEq

/-- Per-prompt sanitization of `generateReflectionPrompts`
(`reflectionAgent.ts` lines 99-103): `category || 'awareness'` (JS falsy
defaulting, so only an absent or empty category is replaced) and
`Math.max(0, Math.min(1, relevance || 0.5))` (an absent or zero relevance
becomes `0.5` before clamping). -/
def sanitizeReflectionPrompt (p : RawReflectionPrompt) : ReflectionPrompt :=
  { question := p.question
    category := strOrDefault p.category "awareness"
    relevance := max 0 (min 1 (numOrDefault p.relevance (1/2))) }

/-- `generateReflectionPrompts` after the collaborator's JSON has been
decoded: `prompts.slice(0, 5).map(sanitize)`. -/
def generateReflectionPrompts (raws : List RawReflectionPrompt) : List ReflectionPrompt :=
  (raws.take 5).map sanitizeReflectionPrompt

/-- The four prompt categories the reflection instructions recognize. -/
def recognizedCategories : List String :=
  ["awareness", "goals", "habits", "alternatives"]

/-- Raw habit nudge as decoded from the collaborator's JSON in
`generateHabitNudges`; type and actionable may be absent. -/
structure RawHabitNudge where
  message : String
  type : Option String
  actionable : Option Bool
  relatedGoal : Option String
  deriving Repr, DecidableEq

/-- Sanitized habit nudge (`types.ts` `HabitNudge`, with the type kept as
the string the code actually stores). -/
structure HabitNudge where
  message : String
  type : String
  actionable : Bool
  relatedGoal : Option String
  deriving Repr, DecidableEq

/-- Per-nudge sanitization of `generateHabitNudges`
(`habitNudgeAgent.ts` lines 498-503): `type || 'neutral'` and
`actionable || false`; `relatedGoal` passes through. -/
def sanitizeNudge (n : RawHabitNudge) : HabitNudge :=
  { message := n.message
    type := strOrDefault n.type "neutral"
    actionable := n.actionable.getD false
    relatedGoal := n.relatedGoal }

/-- `generateHabitNudges` after the collaborator's JSON has been decoded:
`nudges.slice(0, 3).map(sanitize)`. -/
def generateHabitNudges (raws : List RawHabitNudge) : List HabitNudge :=
  (raws.take 3).map sanitizeNudge

/-- `calculateVarietyScore` (`habitNudgeAgent.ts`): the number of distinct
categories (a JS `Set` over the category strings) times `0.2`, capped at
`1.0`. -/
def calculateVarietyScore (foodItems : List FoodItem) : ℚ :=
  min 1 (((foodItems.map (·.category)).dedup).length * (1/5 : ℚ))

/-- `generatePositiveReinforcement` (`habitNudgeAgent.ts` lines 581-606):
a fixed positive nudge when the variety score is at least `0.8`, otherwise
a second fixed positive nudge when both a "vegetable" and a "fruit"
category are present, otherwise `null`. -/
def generatePositiveReinforcement (foodItems : List FoodItem) : Option HabitNudge :=
  let varietyScore := calculateVarietyScore foodItems
  if (4/5 : ℚ) ≤ varietyScore then
    some { message := "🌈 Excellent variety of food groups in this meal!"
           type := "positive", actionable := false, relatedGoal := none }
  else
    let hasVegetables := foodItems.any (fun f => f.category = "vegetable")
    let hasFruit := foodItems.any (fun f => f.category = "fruit")
    if hasVegetables ∧ hasFruit then
      some { message := "🥗 Great job including both vegetables and fruits!"
             type := "positive", actionable := false, relatedGoal := none }
    else none

/-! ## Evaluation stage (`opik/evaluators.ts`)

Each judge call is modelled by its observable outcome: `Except.error` for
a thrown call, and on success the value `parseFloat(content.trim())`
produced from the model's reply, with `none` standing for `NaN`. -/

/-- Outcome of one judge LLM call: a thrown error, or the parsed numeric
score (`none` when `parseFloat` yields `NaN`). -/
abbrev JudgeResult := Except Unit (Option ℚ)

/-- The kinds of evaluator the `evaluators.ts` module defines; used to
record which evaluators a code path invokes. -/
inductive JudgeKind where
  | hallucination
  | clarity
  | tone
  | calibration
  deriving Repr, DecidableEq

/-- Score post-processing shared by `evaluateHallucination`,
`evaluateClarity` and `evaluateToneSafety`: a thrown call returns `0.5`,
a `NaN` parse returns `0.5`, and otherwise the score is clamped to
`[0,1]`. -/
def judgeScore (r : JudgeResult) : ℚ :=
  match r with
  | .error _ => 1/2
  | .ok none => 1/2
  | .ok (some score) => max 0 (min 1 score)

/-- `evaluateHallucination`, with the evaluator it invokes recorded. -/
def evaluateHallucination (r : JudgeResult) : ℚ × List JudgeKind :=
  (judgeScore r, [JudgeKind.hallucination])

/-- `evaluateClarity`, with the evaluator it invokes recorded. -/
def evaluateClarity (r : JudgeResult) : ℚ × List JudgeKind :=
  (judgeScore r, [JudgeKind.clarity])

/-- `evaluateToneSafety`, with the evaluator it invokes recorded. -/
def evaluateToneSafety (r : JudgeResult) : ℚ × List JudgeKind :=
  (judgeScore r, [JudgeKind.tone])

/-- `EvaluationMetrics` (`types.ts`). -/
structure EvaluationMetrics where
  hallucinationScore : ℚ
  clarityScore : ℚ
  toneScore : ℚ
  confidenceCalibration : ℚ
  overallQuality : ℚ
  deriving Repr, DecidableEq

/-- One prediction for the calibration evaluator: a confidence and whether
the prediction was actually correct. -/
structure CalibrationPrediction where
  confidence : ℚ
  actual : Bool
  deriving Repr, DecidableEq

/-- Accumulator of the binned loop in `evaluateConfidenceCalibration`. -/
structure EceAcc where
  totalError : ℚ
  totalSamples : ℚ
  deriving Repr, DecidableEq

/-- One iteration of the bin loop in `evaluateConfidenceCalibration`:
bin `i` collects predictions with confidence in `[i/10, (i+1)/10)`, an
empty bin is skipped, and otherwise the bin contributes
`|avgConfidence - accuracy| * binSize` to the error. -/
def eceBinStep (predictions : List CalibrationPrediction) (acc : EceAcc) (i : ℕ) :
    EceAcc :=
  let binMin : ℚ := i * (1/10)
  let binMax : ℚ := (i + 1) * (1/10)
  let binPredictions := predictions.filter
    (fun p => binMin ≤ p.confidence ∧ p.confidence < binMax)
  if binPredictions.length = 0 then acc
  else
    let avgConfidence :=
      (binPredictions.map (·.confidence)).sum / binPredictions.length
    let accuracy :=
      ((binPredictions.filter (·.actual)).length : ℚ) / binPredictions.length
    { totalError := acc.totalError + |avgConfidence - accuracy| * binPredictions.length
      totalSamples := acc.totalSamples + binPredictions.length }

/-- `evaluateConfidenceCalibration` (`evaluators.ts` lines 107-141):
Expected Calibration Error over 10 bins, returned as `clamp(1 - ece)`;
`0.5` for an empty prediction list. -/
def evaluateConfidenceCalibration (predictions : List CalibrationPrediction) :
    ℚ × List JudgeKind :=
  if predictions.length = 0 then (1/2, [JudgeKind.calibration])
  else
    let acc := (List.range 10).foldl (eceBinStep predictions)
      { totalError := 0, totalSamples := 0 }
    let ece := if acc.totalSamples > 0 then acc.totalError / acc.totalSamples else 0
    (max 0 (min 1 (1 - ece)), [JudgeKind.calibration])

/-- `evaluateAnalysis` (`evaluators.ts` lines 144-164): runs the three
judges, returns their clamped scores, a constant `0.5` confidence
calibration, and `overallQuality` as the mean of the three; the second
component records every evaluator invoked on this path. -/
def evaluateAnalysis (rh rc rt : JudgeResult) : EvaluationMetrics × List JudgeKind :=
  let h := evaluateHallucination rh
  let c := evaluateClarity rc
  let t := evaluateToneSafety rt
  ({ hallucinationScore := h.1
     clarityScore := c.1
     toneScore := t.1
     confidenceCalibration := 1/2
     overallQuality := (h.1 + c.1 + t.1) / 3 },
   h.2 ++ c.2 ++ t.2)

/-! ## The `/api/analyze` route (`app/api/analyze/route.ts`)

`POST` is modelled as a function of the request's `image` field and of an
oracle record giving, for each agent, the outcome of its inference call
and JSON decoding (`Except.error` when the agent throws).  Besides the
response, the model returns the list of pipeline stages that were
invoked, in invocation order: in the source, each `await` happens only
after the previous statement completed, so a stage appears in the list
exactly when control reached its call.  The `id` and `timestamp` fields
of `AnalysisResult` come from the clock and the random generator and are
outside the model. -/

/-- A pipeline stage of the analyze route, for recording which stages a
request actually invoked. -/
inductive Stage where
  | recognition
  | estimation
  | reflection
  | nudge
  | aggregation
  deriving Repr, DecidableEq

/-- Outcomes of the external inference calls made by one analyze request:
each field is the decoded payload of the corresponding agent, or an error
when that agent threw. -/
structure AnalyzeOracles where
  recognizeRaw : Except String (List RawFoodItem)
  estimateRaw : Except String (List RawNutritionEstimate)
  reflectRaw : Except String (List RawReflectionPrompt)
  nudgeRaw : Except String (List RawHabitNudge)
  deriving Repr

/-- The body of a successful analyze response: the `analysis` object
(minus clock-derived `id`/`timestamp`), the `totals`, and the optional
`lowConfidenceItems`. -/
structure SuccessPayload where
  foodItems : List FoodItem
  nutritionEstimates : List NutritionEstimate
  reflectionPrompts : List ReflectionPrompt
  habitNudges : List HabitNudge
  overallConfidence : ℚ
  warnings : Option (List String)
  totals : TotalNutrition
  lowConfidenceItems : Option (List FoodItem)
  deriving Repr, DecidableEq

/-- The observable responses of the analyze route: 400 for a missing
image, 422 with warnings when no item passes the confidence filter, 500
when a stage throws, 200 with the payload otherwise. -/
inductive RouteResponse where
  | missingImage
  | noConfidentItems (warnings : List String)
  | serverError (details : String)
  | ok (payload : SuccessPayload)
  deriving Repr, DecidableEq

/-- `POST` of `app/api/analyze/route.ts`: recognition, the terminal
empty-recognition check, then estimation, reflection and nudges each
awaited in turn, the deterministic reinforcement `unshift`, overall
confidence, totals, and response assembly.  Any agent error is caught by
the route's `try/catch` and becomes a 500 response.  The second component
lists the stages invoked, in order. -/
def analyzePOST (image : Option String) (o : AnalyzeOracles) :
    RouteResponse × List Stage :=
  match image with
  | none => (.missingImage, [])
  | some _ =>
    match o.recognizeRaw with
    | .error e => (.serverError e, [.recognition])
    | .ok rawItems =>
      let filtered := confidenceFilter (recognizeFood rawItems) (3/10)
      if filtered.recognizedItems.length = 0 then
        (.noConfidentItems filtered.warnings, [.recognition])
      else
        match o.estimateRaw with
        | .error e => (.serverError e, [.recognition, .estimation])
        | .ok rawEsts =>
          let nutritionEstimates := estimateNutrition rawEsts
          match o.reflectRaw with
          | .error e => (.serverError e, [.recognition, .estimation, .reflection])
          | .ok rawPrompts =>
            let reflectionPrompts := generateReflectionPrompts rawPrompts
            match o.nudgeRaw with
            | .error e =>
              (.serverError e, [.recognition, .estimation, .reflection, .nudge])
            | .ok rawNudges =>
              let generated := generateHabitNudges rawNudges
              let habitNudges :=
                match generatePositiveReinforcement filtered.recognizedItems with
                | some positiveNudge => positiveNudge :: generated
                | none => generated
              let overallConfidence :=
                (filtered.recognizedItems.map (·.confidence)).sum /
                  filtered.recognizedItems.length
              let totals := calculateTotalNutrition nutritionEstimates
              (.ok
                { foodItems := filtered.recognizedItems
                  nutritionEstimates := nutritionEstimates
                  reflectionPrompts := reflectionPrompts
                  habitNudges := habitNudges
                  overallConfidence := overallConfidence
                  warnings :=
                    if filtered.warnings.length > 0 then some filtered.warnings
                    else none
                  totals := totals
                  lowConfidenceItems :=
                    if filtered.lowConfidenceItems.length > 0 then
                      some filtered.lowConfidenceItems
                    else none },
               [.recognition, .estimation, .reflection, .nudge, .aggregation])

/-! ## Aggregation stage -/

/-- The fold inside `calculateTotalNutrition`, characterized field by
field: each accumulator field ends up as its initial value plus the sum of
the corresponding per-item values. -/
lemma foldl_totalsStep (l : List NutritionEstimate) (acc : TotalsAcc) :
    l.foldl totalsStep acc =
      { caloriesMin := acc.caloriesMin + (l.map (·.calories.min)).sum
        caloriesMax := acc.caloriesMax + (l.map (·.calories.max)).sum
        proteinMin := acc.proteinMin + (l.map (·.protein.min)).sum
        proteinMax := acc.proteinMax + (l.map (·.protein.max)).sum
        carbsMin := acc.carbsMin + (l.map (·.carbs.min)).sum
        carbsMax := acc.carbsMax + (l.map (·.carbs.max)).sum
        fatMin := acc.fatMin + (l.map (·.fat.min)).sum
        fatMax := acc.fatMax + (l.map (·.fat.max)).sum
        confidenceSum := acc.confidenceSum + (l.map (·.calories.confidence)).sum } := by
  induction l generalizing acc with
  | nil => simp
  | cons e t ih =>
    simp only [List.foldl_cons, List.map_cons, List.sum_cons, ih, totalsStep]
    simp only [TotalsAcc.mk.injEq]
    refine ⟨by ring, by ring, by ring, by ring, by ring, by ring, by ring, by ring, by ring⟩

/-- `calculateTotalNutrition` in closed form: every total is the sum of
the per-item values, and the average confidence is the mean of the calorie
confidences (or `0` for the empty list). -/
lemma calculateTotalNutrition_eq (es : List NutritionEstimate) :
    calculateTotalNutrition es =
      { totalCalories :=
          { min := (es.map (·.calories.min)).sum, max := (es.map (·.calories.max)).sum }
        totalProtein :=
          { min := (es.map (·.protein.min)).sum, max := (es.map (·.protein.max)).sum }
        totalCarbs :=
          { min := (es.map (·.carbs.min)).sum, max := (es.map (·.carbs.max)).sum }
        totalFat :=
          { min := (es.map (·.fat.min)).sum, max := (es.map (·.fat.max)).sum }
        averageConfidence :=
          if es.length > 0 then (es.map (·.calories.confidence)).sum / es.length
          else 0 } := by
  simp [calculateTotalNutrition, foldl_totalsStep]

/-- C3: for every list of `NutritionEstimate`s, `calculateTotalNutrition`
returns, for each macro, a total whose min is the sum of the items' mins
and whose max is the sum of the items' maxes, exactly; it returns the same
totals for any permutation of the input; and `averageConfidence` is the
arithmetic mean of the items' calorie confidences, `0` for the empty
list. -/
theorem calculateTotalNutrition_spec (es es' : List NutritionEstimate) :
    ((calculateTotalNutrition es).totalCalories.min = (es.map (·.calories.min)).sum ∧
      (calculateTotalNutrition es).totalCalories.max = (es.map (·.calories.max)).sum) ∧
    ((calculateTotalNutrition es).totalProtein.min = (es.map (·.protein.min)).sum ∧
      (calculateTotalNutrition es).totalProtein.max = (es.map (·.protein.max)).sum) ∧
    ((calculateTotalNutrition es).totalCarbs.min = (es.map (·.carbs.min)).sum ∧
      (calculateTotalNutrition es).totalCarbs.max = (es.map (·.carbs.max)).sum) ∧
    ((calculateTotalNutrition es).totalFat.min = (es.map (·.fat.min)).sum ∧
      (calculateTotalNutrition es).totalFat.max = (es.map (·.fat.max)).sum) ∧
    (calculateTotalNutrition es).averageConfidence =
      (if es.length > 0 then (es.map (·.calories.confidence)).sum / es.length else 0) ∧
    (es.Perm es' → calculateTotalNutrition es = calculateTotalNutrition es') := by
  refine ⟨?_, ?_, ?_, ?_, ?_, ?_⟩
  · simp [calculateTotalNutrition_eq]
  · simp [calculateTotalNutrition_eq]
  · simp [calculateTotalNutrition_eq]
  · simp [calculateTotalNutrition_eq]
  · simp [calculateTotalNutrition_eq]
  · intro hperm
    rw [calculateTotalNutrition_eq, calculateTotalNutrition_eq]
    have hlen := hperm.length_eq
    have hs : ∀ f : NutritionEstimate → ℚ, (es.map f).sum = (es'.map f).sum :=
      fun f => (hperm.map f).sum_eq
    simp [hs, hlen]

/-- Scenario C sample estimate with calories `[100, 120]`. -/
def sampleEstimateA : NutritionEstimate :=
  { foodItem := "grilled chicken breast"
    calories := { min := 100, max := 120, confidence := 8/10 }
    protein := { min := 26, max := 31, unit := "g" }
    carbs := { min := 0, max := 0, unit := "g" }
    fat := { min := 3, max := 5, unit := "g" }
    fiber := none
    variabilityFactors := ["portion size"] }

/-- Scenario C sample estimate with calories `[200, 250]`. -/
def sampleEstimateB : NutritionEstimate :=
  { foodItem := "steamed rice"
    calories := { min := 200, max := 250, confidence := 6/10 }
    protein := { min := 4, max := 5, unit := "g" }
    carbs := { min := 40, max := 55, unit := "g" }
    fat := { min := 0, max := 1, unit := "g" }
    fiber := none
    variabilityFactors := [] }

/-- Witness for C3, at Scenario C of the spec: estimates with calorie
ranges `[100,120]` and `[200,250]` aggregate to `{min 300, max 370}`, in
either order, and the average confidence is the mean of `0.8` and
`0.6`. -/
theorem calculateTotalNutrition_spec_witness :
    (calculateTotalNutrition [sampleEstimateA, sampleEstimateB]).totalCalories.min = 300 ∧
    (calculateTotalNutrition [sampleEstimateA, sampleEstimateB]).totalCalories.max = 370 ∧
    (calculateTotalNutrition [sampleEstimateA, sampleEstimateB]).averageConfidence = 7/10 ∧
    calculateTotalNutrition [sampleEstimateA, sampleEstimateB] =
      calculateTotalNutrition [sampleEstimateB, sampleEstimateA] := by
  have h := calculateTotalNutrition_spec [sampleEstimateA, sampleEstimateB]
    [sampleEstimateB, sampleEstimateA]
  refine ⟨?_, ?_, ?_, h.2.2.2.2.2 (List.Perm.swap sampleEstimateB sampleEstimateA [])⟩
  · rw [h.1.1]; norm_num [sampleEstimateA, sampleEstimateB]
  · rw [h.1.2]; norm_num [sampleEstimateA, sampleEstimateB]
  · rw [h.2.2.2.2.1]; norm_num [sampleEstimateA, sampleEstimateB]

/-! ## Confidence filter -/

/-- C6: the confidence filter is idempotent — re-filtering its own
`recognizedItems` output with the same threshold returns the same list
unchanged, for every item list and every threshold. -/
theorem confidenceFilter_idempotent (items : List FoodItem) (threshold : ℚ) :
    (confidenceFilter ((confidenceFilter items threshold).recognizedItems)
        threshold).recognizedItems =
      (confidenceFilter items threshold).recognizedItems := by
  simp [confidenceFilter, List.filter_filter]

/-! ## Estimation stage sanitization (C1) -/

/-- A raw estimate whose calorie min is negative (with max below it) and
whose fiber range is negative and inverted. -/
def rawBadEstimate : RawNutritionEstimate :=
  { foodItem := "mystery stew"
    calories := { min := -5, max := -10, confidence := 1/2 }
    protein := { min := 1, max := 2, unit := some "g" }
    carbs := { min := 1, max := 2, unit := none }
    fat := { min := 0, max := 1, unit := some "g" }
    fiber := some { min := -1, max := -2, unit := none }
    variabilityFactors := none }

/-- C1 counterexample: the claimed invariant `min ≥ 0 ∧ max ≥ min` for
every ranged field fails on `estimateNutrition`'s output.  On raw calories
`{min := -5, max := -10}` the sanitization produces
`{min := max 0 (-5) = 0, max := max (-5) (-10) = -5}` — the max floor uses
the raw min, not the adjusted one — and the fiber range is passed through
with its negative values untouched. -/
theorem estimateNutrition_ranges_cex :
    ((estimateNutrition [rawBadEstimate]).map
        (fun e => (e.calories.min, e.calories.max))) = [((0 : ℚ), (-5 : ℚ))] ∧
    ((-5 : ℚ) < 0) ∧
    ((estimateNutrition [rawBadEstimate]).map (·.fiber)) =
      [some { min := -1, max := -2, unit := none }] ∧
    ((-1 : ℚ) < 0) := by
  refine ⟨?_, by norm_num, by simp [estimateNutrition, sanitizeEstimate, rawBadEstimate],
    by norm_num⟩
  simp [estimateNutrition, sanitizeEstimate, rawBadEstimate]
  norm_num [max_def]

/-- C1 amended: for every raw estimate list, each output of
`estimateNutrition` has, for the four sanitized fields (calories, protein,
carbs, fat), `min = max(0, raw.min) ≥ 0` and `max = max(raw.min, raw.max)`,
so `max ≥ min` holds whenever the raw min is non-negative (in particular
whenever raw `max < min` with a non-negative raw min, as in Scenario D);
the optional fiber field is passed through entirely unsanitized. -/
theorem estimateNutrition_ranges_amended (raws : List RawNutritionEstimate)
    (r : RawNutritionEstimate) (hr : r ∈ raws) :
    sanitizeEstimate r ∈ estimateNutrition raws ∧
    (0 ≤ (sanitizeEstimate r).calories.min ∧ 0 ≤ (sanitizeEstimate r).protein.min ∧
      0 ≤ (sanitizeEstimate r).carbs.min ∧ 0 ≤ (sanitizeEstimate r).fat.min) ∧
    ((sanitizeEstimate r).calories.max = max r.calories.min r.calories.max ∧
      (sanitizeEstimate r).protein.max = max r.protein.min r.protein.max ∧
      (sanitizeEstimate r).carbs.max = max r.carbs.min r.carbs.max ∧
      (sanitizeEstimate r).fat.max = max r.fat.min r.fat.max) ∧
    ((0 ≤ r.calories.min →
        (sanitizeEstimate r).calories.min ≤ (sanitizeEstimate r).calories.max) ∧
      (0 ≤ r.protein.min →
        (sanitizeEstimate r).protein.min ≤ (sanitizeEstimate r).protein.max) ∧
      (0 ≤ r.carbs.min →
        (sanitizeEstimate r).carbs.min ≤ (sanitizeEstimate r).carbs.max) ∧
      (0 ≤ r.fat.min →
        (sanitizeEstimate r).fat.min ≤ (sanitizeEstimate r).fat.max)) ∧
    (sanitizeEstimate r).fiber = r.fiber := by
  refine ⟨List.mem_map_of_mem sanitizeEstimate hr, ?_, ?_, ?_, rfl⟩
  · exact ⟨le_max_left 0 _, le_max_left 0 _, le_max_left 0 _, le_max_left 0 _⟩
  · exact ⟨rfl, rfl, rfl, rfl⟩
  · refine ⟨fun h => ?_, fun h => ?_, fun h => ?_, fun h => ?_⟩ <;>
      simp [sanitizeEstimate, max_eq_right h]

/-- Scenario D raw estimate: calories `{min := 50, max := 10}` with all
raw mins non-negative. -/
def rawScenarioD : RawNutritionEstimate :=
  { foodItem := "pasta"
    calories := { min := 50, max := 10, confidence := 7/10 }
    protein := { min := 5, max := 8, unit := some "g" }
    carbs := { min := 20, max := 30, unit := none }
    fat := { min := 2, max := 4, unit := some "g" }
    fiber := none
    variabilityFactors := some ["portion size"] }

/-- Witness for the amended C1: at Scenario D (raw calories
`{min := 50, max := 10}`), the sanitized calories are `{min 50, max 50}`
and every sanitized range satisfies `0 ≤ min ≤ max`. -/
theorem estimateNutrition_ranges_amended_witness :
    sanitizeEstimate rawScenarioD ∈ estimateNutrition [rawScenarioD] ∧
    (sanitizeEstimate rawScenarioD).calories.min = 50 ∧
    (sanitizeEstimate rawScenarioD).calories.max = 50 ∧
    (sanitizeEstimate rawScenarioD).calories.min ≤
      (sanitizeEstimate rawScenarioD).calories.max ∧
    (sanitizeEstimate rawScenarioD).protein.min ≤
      (sanitizeEstimate rawScenarioD).protein.max := by
  have h := estimateNutrition_ranges_amended [rawScenarioD] rawScenarioD
    (List.mem_singleton.mpr rfl)
  refine ⟨h.1, ?_, ?_, ?_, ?_⟩
  · norm_num [sanitizeEstimate, rawScenarioD, max_def]
  · norm_num [sanitizeEstimate, rawScenarioD, max_def]
  · exact h.2.2.2.1.1 (by norm_num [rawScenarioD])
  · exact h.2.2.2.1.2.1 (by norm_num [rawScenarioD])

/-! ## Reflection stage (C7) -/

/-- A raw reflection prompt carrying a non-empty category that is not one
of the four recognized categories. -/
def rawMoodPrompt : RawReflectionPrompt :=
  { question := "How did this meal fit your mood?"
    category := some "mood"
    relevance := some (9/10) }

/-- C7 counterexample: an unrecognized but non-empty raw category is *not*
defaulted to `awareness` — `generateReflectionPrompts` stores the string
`"mood"` unchanged, because the source defaults with JavaScript's
`p.category || 'awareness'`, which replaces only falsy (absent or empty)
categories. -/
theorem generateReflectionPrompts_category_cex :
    ((generateReflectionPrompts [rawMoodPrompt]).map (·.category)) = ["mood"] ∧
    decide ("mood" ∈ recognizedCategories) = false ∧
    decide ("mood" = "awareness") = false := by
  refine ⟨rfl, by decide, by decide⟩

/-- C7 amended: `generateReflectionPrompts` returns at most 5 prompts,
each with relevance in `[0,1]`; the category is defaulted to `awareness`
exactly when the raw category is missing or the empty string, and any
other raw category string — recognized or not — is kept unchanged. -/
theorem generateReflectionPrompts_amended (raws : List RawReflectionPrompt) :
    (generateReflectionPrompts raws).length ≤ 5 ∧
    (∀ p ∈ generateReflectionPrompts raws, 0 ≤ p.relevance ∧ p.relevance ≤ 1) ∧
    (∀ r ∈ raws.take 5, sanitizeReflectionPrompt r ∈ generateReflectionPrompts raws ∧
      (sanitizeReflectionPrompt r).category =
        match r.category with
        | none => "awareness"
        | some c => if c = "" then "awareness" else c) := by
  refine ⟨?_, ?_, ?_⟩
  · simp [generateReflectionPrompts]
  · intro p hp
    simp only [generateReflectionPrompts, List.mem_map] at hp
    obtain ⟨r, -, rfl⟩ := hp
    constructor
    · exact le_max_left 0 _
    · exact max_le (by norm_num) (min_le_left 1 _)
  · intro r hr
    exact ⟨List.mem_map_of_mem sanitizeReflectionPrompt hr, rfl⟩

/-- A raw reflection prompt with no category and no relevance. -/
def rawBarePrompt : RawReflectionPrompt :=
  { question := "What drew you to this meal today?"
    category := none
    relevance := none }

/-- Witness for the amended C7: on a two-prompt raw list, the output has
at most 5 entries, the relevance of the sanitized bare prompt lies in
`[0,1]` (it is defaulted to `0.5`), the bare prompt's category defaults to
`awareness`, and the `"mood"` category is kept. -/
theorem generateReflectionPrompts_amended_witness :
    (generateReflectionPrompts [rawBarePrompt, rawMoodPrompt]).length ≤ 5 ∧
    (0 ≤ (sanitizeReflectionPrompt rawBarePrompt).relevance ∧
      (sanitizeReflectionPrompt rawBarePrompt).relevance ≤ 1) ∧
    (sanitizeReflectionPrompt rawBarePrompt).relevance = 1/2 ∧
    (sanitizeReflectionPrompt rawBarePrompt).category = "awareness" ∧
    (sanitizeReflectionPrompt rawMoodPrompt).category = "mood" := by
  have h := generateReflectionPrompts_amended [rawBarePrompt, rawMoodPrompt]
  refine ⟨h.1, ?_, ?_, ?_, ?_⟩
  · exact h.2.1 (sanitizeReflectionPrompt rawBarePrompt)
      (List.mem_map_of_mem sanitizeReflectionPrompt (by simp))
  · norm_num [sanitizeReflectionPrompt, rawBarePrompt, numOrDefault]
  · exact (h.2.2 rawBarePrompt (by simp)).2
  · exact (h.2.2 rawMoodPrompt (by simp)).2

/-! ## Evaluation stage (C5, C10) -/

/-- Every post-processed judge score lies in `[0,1]`. -/
lemma judgeScore_mem_unitInterval (r : JudgeResult) :
    0 ≤ judgeScore r ∧ judgeScore r ≤ 1 := by
  rcases r with e | s
  · exact ⟨by norm_num [judgeScore], by norm_num [judgeScore]⟩
  · rcases s with - | score
    · exact ⟨by norm_num [judgeScore], by norm_num [judgeScore]⟩
    · exact ⟨le_max_left 0 _, max_le (by norm_num) (min_le_left 1 _)⟩

/-- C5: in `evaluateAnalysis`, each of the three judge scores lies in
`[0,1]`; `overallQuality` is their arithmetic mean; a thrown judge call
yields `0.5` for its own metric; and replacing any one judge's outcome by
a thrown call leaves the other two metrics exactly unchanged. -/
theorem evaluateAnalysis_degradation_spec (rh rc rt : JudgeResult) :
    ((0 ≤ (evaluateAnalysis rh rc rt).1.hallucinationScore ∧
        (evaluateAnalysis rh rc rt).1.hallucinationScore ≤ 1) ∧
      (0 ≤ (evaluateAnalysis rh rc rt).1.clarityScore ∧
        (evaluateAnalysis rh rc rt).1.clarityScore ≤ 1) ∧
      (0 ≤ (evaluateAnalysis rh rc rt).1.toneScore ∧
        (evaluateAnalysis rh rc rt).1.toneScore ≤ 1)) ∧
    (evaluateAnalysis rh rc rt).1.overallQuality =
      ((evaluateAnalysis rh rc rt).1.hallucinationScore +
        (evaluateAnalysis rh rc rt).1.clarityScore +
        (evaluateAnalysis rh rc rt).1.toneScore) / 3 ∧
    ((evaluateAnalysis (.error ()) rc rt).1.hallucinationScore = 1/2 ∧
      (evaluateAnalysis rh (.error ()) rt).1.clarityScore = 1/2 ∧
      (evaluateAnalysis rh rc (.error ())).1.toneScore = 1/2) ∧
    ((evaluateAnalysis (.error ()) rc rt).1.clarityScore =
        (evaluateAnalysis rh rc rt).1.clarityScore ∧
      (evaluateAnalysis (.error ()) rc rt).1.toneScore =
        (evaluateAnalysis rh rc rt).1.toneScore) ∧
    ((evaluateAnalysis rh (.error ()) rt).1.hallucinationScore =
        (evaluateAnalysis rh rc rt).1.hallucinationScore ∧
      (evaluateAnalysis rh (.error ()) rt).1.toneScore =
        (evaluateAnalysis rh rc rt).1.toneScore) ∧
    ((evaluateAnalysis rh rc (.error ())).1.hallucinationScore =
        (evaluateAnalysis rh rc rt).1.hallucinationScore ∧
      (evaluateAnalysis rh rc (.error ())).1.clarityScore =
        (evaluateAnalysis rh rc rt).1.clarityScore) := by
  refine ⟨⟨?_, ?_, ?_⟩, rfl, ⟨rfl, rfl, rfl⟩, ⟨rfl, rfl⟩, ⟨rfl, rfl⟩, rfl, rfl⟩ <;>
    exact judgeScore_mem_unitInterval _

/-- C10: for every combination of judge outcomes, the metrics returned by
`evaluateAnalysis` carry `confidenceCalibration` equal to exactly `0.5`,
and the evaluators invoked on the analysis path are precisely the three
judges — in particular the Expected-Calibration-Error evaluator
(`evaluateConfidenceCalibration`, tagged `JudgeKind.calibration`) is never
among them. -/
theorem evaluateAnalysis_calibration_constant (rh rc rt : JudgeResult) :
    (evaluateAnalysis rh rc rt).1.confidenceCalibration = 1/2 ∧
    (evaluateAnalysis rh rc rt).2 =
      [JudgeKind.hallucination, JudgeKind.clarity, JudgeKind.tone] ∧
    decide (JudgeKind.calibration ∈ (evaluateAnalysis rh rc rt).2) = false := by
  refine ⟨rfl, rfl, decide_eq_false ?_⟩
  intro hmem
  rw [show (evaluateAnalysis rh rc rt).2 =
    [JudgeKind.hallucination, JudgeKind.clarity, JudgeKind.tone] from rfl] at hmem
  simp at hmem

/-! ## Habit nudge count in the assembled result (C2) -/

/-- `generateHabitNudges` returns at most 3 nudges (`slice(0, 3)`). -/
lemma generateHabitNudges_length_le (raws : List RawHabitNudge) :
    (generateHabitNudges raws).length ≤ 3 := by
  simp [generateHabitNudges]

/-- A raw broccoli item recognized with full confidence. -/
def vegItem : RawFoodItem :=
  { name := some "broccoli", confidence := some 1, category := some "vegetable"
    portionSize := none, preparationMethod := none }

/-- A raw apple item recognized with full confidence. -/
def fruitItem : RawFoodItem :=
  { name := some "apple", confidence := some 1, category := some "fruit"
    portionSize := none, preparationMethod := none }

/-- A raw generative nudge with the given message. -/
def rawSuggestionNudge (msg : String) : RawHabitNudge :=
  { message := msg, type := some "suggestion", actionable := some true
    relatedGoal := none }

/-- An analyze request whose recognition yields a vegetable and a fruit
(so the deterministic reinforcement fires) and whose nudge agent returns
three generative nudges. -/
def oracleFourNudges : AnalyzeOracles :=
  { recognizeRaw := .ok [vegItem, fruitItem]
    estimateRaw := .ok []
    reflectRaw := .ok []
    nudgeRaw := .ok [rawSuggestionNudge "a", rawSuggestionNudge "b",
      rawSuggestionNudge "c"] }

/-- The sanitized broccoli item. -/
def broccoliFI : FoodItem :=
  { name := "broccoli", confidence := 1, category := "vegetable"
    portionSize := none, preparationMethod := none }

/-- The sanitized apple item. -/
def appleFI : FoodItem :=
  { name := "apple", confidence := 1, category := "fruit"
    portionSize := none, preparationMethod := none }

/-- A sanitized generative suggestion nudge. -/
def suggestionNudge (msg : String) : HabitNudge :=
  { message := msg, type := "suggestion", actionable := true, relatedGoal := none }

/-- The fixed deterministic nudge emitted when both a vegetable and a
fruit are present (variety score below `0.8`). -/
def vegFruitNudge : HabitNudge :=
  { message := "🥗 Great job including both vegetables and fruits!"
    type := "positive", actionable := false, relatedGoal := none }

/-- The payload the route assembles for `oracleFourNudges`. -/
def payloadFourNudges : SuccessPayload :=
  { foodItems := [broccoliFI, appleFI]
    nutritionEstimates := []
    reflectionPrompts := []
    habitNudges := [vegFruitNudge, suggestionNudge "a", suggestionNudge "b",
      suggestionNudge "c"]
    overallConfidence := 1
    warnings := none
    totals :=
      { totalCalories := { min := 0, max := 0 }
        totalProtein := { min := 0, max := 0 }
        totalCarbs := { min := 0, max := 0 }
        totalFat := { min := 0, max := 0 }
        averageConfidence := 0 }
    lowConfidenceItems := none }

/-- The deterministic reinforcement fires on a broccoli-and-apple meal:
the variety score is `2/5 < 4/5`, but both a vegetable and a fruit
category are present. -/
lemma positiveReinforcement_vegFruit :
    generatePositiveReinforcement [broccoliFI, appleFI] = some vegFruitNudge := by
  have hdedup : (([broccoliFI, appleFI].map (·.category)).dedup) =
      ["vegetable", "fruit"] := by
    simp [broccoliFI, appleFI, List.dedup_cons_of_not_mem]
  have hscore : calculateVarietyScore [broccoliFI, appleFI] = 2/5 := by
    rw [calculateVarietyScore, hdedup]
    norm_num [min_def]
  rw [generatePositiveReinforcement, hscore]
  norm_num [broccoliFI, appleFI, vegFruitNudge, List.any_cons]

/-- Full evaluation of the route on `oracleFourNudges`: a success
response whose nudge list is the deterministic nudge followed by the
three generative ones. -/
lemma analyzePOST_fourNudges :
    analyzePOST (some "img") oracleFourNudges =
      (RouteResponse.ok payloadFourNudges,
        [Stage.recognition, Stage.estimation, Stage.reflection, Stage.nudge,
          Stage.aggregation]) := by
  have hfood : recognizeFood [vegItem, fruitItem] = [broccoliFI, appleFI] := by
    simp [recognizeFood, sanitizeFoodItem, vegItem, fruitItem, broccoliFI, appleFI,
      numOrDefault, strOrDefault]
  have hfilter : confidenceFilter [broccoliFI, appleFI] (3/10) =
      { recognizedItems := [broccoliFI, appleFI], lowConfidenceItems := []
        warnings := [] } := by
    simp [confidenceFilter, broccoliFI, appleFI]
    norm_num
  have hnudges : generateHabitNudges [rawSuggestionNudge "a", rawSuggestionNudge "b",
      rawSuggestionNudge "c"] =
      [suggestionNudge "a", suggestionNudge "b", suggestionNudge "c"] := by
    simp [generateHabitNudges, sanitizeNudge, rawSuggestionNudge, suggestionNudge,
      strOrDefault]
  simp only [analyzePOST, oracleFourNudges, hfood, hfilter]
  simp only [positiveReinforcement_vegFruit, hnudges]
  norm_num [estimateNutrition, generateReflectionPrompts,
    calculateTotalNutrition_eq, payloadFourNudges, broccoliFI, appleFI]

/-- C2 counterexample: an assembled result whose `habitNudges` list has 4
entries — the generative cap of 3 plus the deterministic reinforcement
nudge that the route `unshift`s on top — refuting the claimed bound of
3. -/
theorem habitNudges_length_cex :
    (match (analyzePOST (some "img") oracleFourNudges).1 with
     | RouteResponse.ok p => p.habitNudges.length
     | _ => 0) = 4 := by
  rw [analyzePOST_fourNudges]
  simp [payloadFourNudges]

/-- C2 amended: for every analysis request that reaches result assembly,
the `habitNudges` list of the assembled result has between 0 and 4
entries: at most 3 generative nudges, plus possibly the one deterministic
reinforcement nudge prepended by the route. -/
theorem habitNudges_length_amended (image : Option String) (o : AnalyzeOracles) :
    match (analyzePOST image o).1 with
    | RouteResponse.ok p => p.habitNudges.length ≤ 4
    | _ => True := by
  unfold analyzePOST
  rcases image with - | img
  · trivial
  rcases o.recognizeRaw with e | rawItems
  · trivial
  by_cases hempty :
      (confidenceFilter (recognizeFood rawItems) (3/10)).recognizedItems.length = 0
  · simp only [hempty, if_pos rfl]
    trivial
  simp only [if_neg hempty]
  rcases o.estimateRaw with e | rawEsts
  · trivial
  rcases o.reflectRaw with e | rawPrompts
  · trivial
  rcases o.nudgeRaw with e | rawNudges
  · trivial
  have hlen := generateHabitNudges_length_le rawNudges
  rcases hpos : generatePositiveReinforcement
      (confidenceFilter (recognizeFood rawItems) (3/10)).recognizedItems with - | n <;>
    simp only [hpos] <;> simp <;> omega

/-! ## Terminal condition of the pipeline (C4) -/

/-- C4: for every request whose recognition succeeds, (i) if the
confidence filter yields no recognized item the route answers with the
error payload carrying the computed warnings and only the recognition
stage has run; (ii) that error response arises *only* from an empty
recognized list; and (iii) when the recognized list is non-empty and
every later agent succeeds, the request is not exited early: all five
stages run and a success payload is returned. -/
theorem confidenceFilter_terminal_spec (img : String) (o : AnalyzeOracles)
    (items : List RawFoodItem) (hrec : o.recognizeRaw = .ok items) :
    ((confidenceFilter (recognizeFood items) (3/10)).recognizedItems.length = 0 →
      (analyzePOST (some img) o).1 =
        RouteResponse.noConfidentItems
          (confidenceFilter (recognizeFood items) (3/10)).warnings ∧
      (analyzePOST (some img) o).2 = [Stage.recognition]) ∧
    (∀ w, (analyzePOST (some img) o).1 = RouteResponse.noConfidentItems w →
      (confidenceFilter (recognizeFood items) (3/10)).recognizedItems.length = 0 ∧
      w = (confidenceFilter (recognizeFood items) (3/10)).warnings) ∧
    (∀ rawEsts rawPrompts rawNudges,
      o.estimateRaw = .ok rawEsts → o.reflectRaw = .ok rawPrompts →
      o.nudgeRaw = .ok rawNudges →
      (confidenceFilter (recognizeFood items) (3/10)).recognizedItems.length ≠ 0 →
      (∃ p, (analyzePOST (some img) o).1 = RouteResponse.ok p) ∧
      (analyzePOST (some img) o).2 =
        [Stage.recognition, Stage.estimation, Stage.reflection, Stage.nudge,
          Stage.aggregation]) := by
  refine ⟨?_, ?_, ?_⟩
  · intro hempty
    simp [analyzePOST, hrec, hempty]
  · intro w hw
    by_cases hempty :
        (confidenceFilter (recognizeFood items) (3/10)).recognizedItems.length = 0
    · simp [analyzePOST, hrec, hempty] at hw
      exact ⟨hempty, hw.symm⟩
    · exfalso
      rcases hest : o.estimateRaw with e | rawEsts
      · simp [analyzePOST, hrec, hempty, hest] at hw
      rcases href : o.reflectRaw with e | rawPrompts
      · simp [analyzePOST, hrec, hempty, hest, href] at hw
      rcases hnud : o.nudgeRaw with e | rawNudges
      · simp [analyzePOST, hrec, hempty, hest, href, hnud] at hw
      · simp [analyzePOST, hrec, hempty, hest, href, hnud] at hw
  · intro rawEsts rawPrompts rawNudges hest href hnud hne
    constructor
    · exact ⟨_, by simp [analyzePOST, hrec, hest, href, hnud, hne]; rfl⟩
    · simp [analyzePOST, hrec, hest, href, hnud, hne]

/-- A raw item whose confidence `0.1` falls below the `0.3` threshold. -/
def lowConfItem : RawFoodItem :=
  { name := some "blurred object", confidence := some (1/10), category := none
    portionSize := none, preparationMethod := none }

/-- An analyze request in which the only detected item has confidence
below the threshold, so the confidence filter recognizes nothing. -/
def oracleAllLow : AnalyzeOracles :=
  { recognizeRaw := .ok [lowConfItem]
    estimateRaw := .ok []
    reflectRaw := .ok []
    nudgeRaw := .ok [] }

/-- The sanitized low-confidence item. -/
def sanLowItem : FoodItem :=
  { name := "blurred object", confidence := 1/10, category := "unknown"
    portionSize := none, preparationMethod := none }

/-- Evaluating `recognizeFood` on the single low-confidence raw item. -/
lemma recognizeFood_lowConf : recognizeFood [lowConfItem] = [sanLowItem] := by
  simp [recognizeFood, sanitizeFoodItem, lowConfItem, sanLowItem, numOrDefault,
    strOrDefault]
  norm_num [max_def, min_def]

/-- Evaluating the confidence filter on the sanitized low-confidence
item: nothing is recognized and both low-confidence warnings are
emitted. -/
lemma confidenceFilter_lowConf : confidenceFilter [sanLowItem] (3/10) =
    { recognizedItems := [], lowConfidenceItems := [sanLowItem]
      warnings :=
        ["1 food item(s) detected with low confidence. Results may be less accurate.",
          "All detected items have low confidence. Consider uploading a clearer image."] } := by
  simp [confidenceFilter, sanLowItem]
  norm_num
  rfl

/-- Witness for C4: on a request whose single detected item is below the
threshold, the route answers with the computed warnings (both
low-confidence warnings) and only the recognition stage runs. -/
theorem confidenceFilter_terminal_spec_witness :
    (analyzePOST (some "img") oracleAllLow).1 =
      RouteResponse.noConfidentItems
        (confidenceFilter (recognizeFood [lowConfItem]) (3/10)).warnings ∧
    (analyzePOST (some "img") oracleAllLow).2 = [Stage.recognition] ∧
    (confidenceFilter (recognizeFood [lowConfItem]) (3/10)).warnings =
      ["1 food item(s) detected with low confidence. Results may be less accurate.",
        "All detected items have low confidence. Consider uploading a clearer image."] := by
  have h := (confidenceFilter_terminal_spec "img" oracleAllLow [lowConfItem] rfl).1
    (by rw [recognizeFood_lowConf, confidenceFilter_lowConf]; rfl)
  exact ⟨h.1, h.2, by rw [recognizeFood_lowConf, confidenceFilter_lowConf]⟩

/-! ## Deterministic positive reinforcement (C8) -/

/-- C8: the variety score is `min(1, uniqueCategoryCount * 0.2)`; the
deterministic reinforcement returns a nudge exactly when the variety
score is at least `0.8` or both a "vegetable" and a "fruit" category are
present; every such nudge has type `positive`; and on every successful
analyze request the route prepends that nudge ahead of the generative
nudges. -/
theorem positiveReinforcement_spec (items : List FoodItem) :
    calculateVarietyScore items =
      min 1 (((items.map (·.category)).dedup).length * (1/5 : ℚ)) ∧
    ((generatePositiveReinforcement items).isSome = true ↔
      ((4/5 : ℚ) ≤ calculateVarietyScore items ∨
        (items.any (fun f => f.category = "vegetable") = true ∧
          items.any (fun f => f.category = "fruit") = true))) ∧
    (∀ n, generatePositiveReinforcement items = some n → n.type = "positive") ∧
    (∀ (img : String) (o : AnalyzeOracles) (p : SuccessPayload) (n : HabitNudge)
        (rawNudges : List RawHabitNudge),
      o.nudgeRaw = .ok rawNudges →
      (analyzePOST (some img) o).1 = RouteResponse.ok p →
      generatePositiveReinforcement p.foodItems = some n →
      p.habitNudges = n :: generateHabitNudges rawNudges) := by
  refine ⟨rfl, ?_, ?_, ?_⟩
  · unfold generatePositiveReinforcement
    by_cases h1 : (4/5 : ℚ) ≤ calculateVarietyScore items
    · simp [h1]
    · by_cases h2 : (items.any (fun f => f.category = "vegetable") = true ∧
          items.any (fun f => f.category = "fruit") = true)
      · simp [h1, h2]
      · simp [h1, h2]
  · intro n hn
    simp only [generatePositiveReinforcement] at hn
    split_ifs at hn
    · cases hn
      rfl
    · cases hn
      rfl
  · intro img o p n rawNudges hnud hok hpos
    rcases hrec : o.recognizeRaw with er | rawItems
    · simp [analyzePOST, hrec] at hok
    by_cases hempty :
        (confidenceFilter (recognizeFood rawItems) (3/10)).recognizedItems.length = 0
    · simp [analyzePOST, hrec, hempty] at hok
    rcases hest : o.estimateRaw with er | rawEsts
    · simp [analyzePOST, hrec, hempty, hest] at hok
    rcases href : o.reflectRaw with er | rawPrompts
    · simp [analyzePOST, hrec, hempty, hest, href] at hok
    simp [analyzePOST, hrec, hempty, hest, href, hnud] at hok
    subst hok
    simp only at hpos
    simp only [hpos]

/-- Witness for C8: on the broccoli-and-apple meal, the deterministic
reinforcement is present, it is the positive vegetables-and-fruits nudge,
and the payload the route assembles for `oracleFourNudges` carries it
prepended to the three generative nudges. -/
theorem positiveReinforcement_spec_witness :
    (generatePositiveReinforcement [broccoliFI, appleFI]).isSome = true ∧
    (generatePositiveReinforcement [broccoliFI, appleFI]).map (·.type) =
      some "positive" ∧
    payloadFourNudges.habitNudges =
      vegFruitNudge :: generateHabitNudges [rawSuggestionNudge "a",
        rawSuggestionNudge "b", rawSuggestionNudge "c"] := by
  have h := positiveReinforcement_spec [broccoliFI, appleFI]
  refine ⟨?_, ?_, ?_⟩
  · exact h.2.1.mpr (Or.inr ⟨by simp [broccoliFI, appleFI], by simp [broccoliFI, appleFI]⟩)
  · have htype := h.2.2.1 vegFruitNudge positiveReinforcement_vegFruit
    rw [positiveReinforcement_vegFruit]
    simp [htype]
  · exact h.2.2.2 "img" oracleFourNudges payloadFourNudges vegFruitNudge
      [rawSuggestionNudge "a", rawSuggestionNudge "b", rawSuggestionNudge "c"]
      rfl (by rw [analyzePOST_fourNudges]) positiveReinforcement_vegFruit

/-! ## Sequencing of reflection and nudge generation (C9) -/

/-- An analyze request whose reflection agent throws while every other
agent would succeed. -/
def oracleReflectFail : AnalyzeOracles :=
  { recognizeRaw := .ok [vegItem]
    estimateRaw := .ok []
    reflectRaw := .error "reflection failed"
    nudgeRaw := .ok [] }

/-- Evaluating the confidence filter on the sanitized broccoli item. -/
lemma confidenceFilter_broccoli : confidenceFilter [broccoliFI] (3/10) =
    { recognizedItems := [broccoliFI], lowConfidenceItems := [], warnings := [] } := by
  simp [confidenceFilter, broccoliFI]
  norm_num

/-- C9 counterexample: when the reflection call fails, the nudge stage is
never invoked at all — impossible if the two ran concurrently — because
the route `await`s reflection before starting nudge generation; the whole
request becomes an error response. -/
theorem reflection_nudge_concurrent_cex :
    (analyzePOST (some "img") oracleReflectFail).1 =
      RouteResponse.serverError "reflection failed" ∧
    (analyzePOST (some "img") oracleReflectFail).2 =
      [Stage.recognition, Stage.estimation, Stage.reflection] := by
  have hfood : recognizeFood [vegItem] = [broccoliFI] := by
    simp [recognizeFood, sanitizeFoodItem, vegItem, broccoliFI, numOrDefault,
      strOrDefault]
  refine ⟨?_, ?_⟩ <;>
    simp [analyzePOST, oracleReflectFail, hfood, confidenceFilter_broccoli]

/-- C9 amended: reflection and nudge generation run *sequentially* —
nudge generation starts only after reflection has completed successfully
(when reflection fails the nudge stage is never invoked) — and assembly
remains all-or-nothing: a failure of either stage prevents any success
payload, and a success payload implies both stages ran and both agent
calls succeeded. -/
theorem reflection_nudge_sequencing_amended (img : String) (o : AnalyzeOracles) :
    (∀ e, o.reflectRaw = .error e →
      Stage.nudge ∉ (analyzePOST (some img) o).2 ∧
      ∀ p, (analyzePOST (some img) o).1 ≠ RouteResponse.ok p) ∧
    (∀ e, o.nudgeRaw = .error e →
      ∀ p, (analyzePOST (some img) o).1 ≠ RouteResponse.ok p) ∧
    (∀ p, (analyzePOST (some img) o).1 = RouteResponse.ok p →
      (∃ rawPrompts, o.reflectRaw = .ok rawPrompts) ∧
      (∃ rawNudges, o.nudgeRaw = .ok rawNudges) ∧
      Stage.reflection ∈ (analyzePOST (some img) o).2 ∧
      Stage.nudge ∈ (analyzePOST (some img) o).2) := by
  refine ⟨?_, ?_, ?_⟩
  · intro e hrefl
    rcases hrec : o.recognizeRaw with er | rawItems
    · constructor <;> simp [analyzePOST, hrec]
    by_cases hempty :
        (confidenceFilter (recognizeFood rawItems) (3/10)).recognizedItems.length = 0
    · constructor <;> simp [analyzePOST, hrec, hempty]
    rcases hest : o.estimateRaw with er | rawEsts
    · constructor <;> simp [analyzePOST, hrec, hempty, hest]
    · constructor <;> simp [analyzePOST, hrec, hempty, hest, hrefl]
  · intro e hnud p
    rcases hrec : o.recognizeRaw with er | rawItems
    · simp [analyzePOST, hrec]
    by_cases hempty :
        (confidenceFilter (recognizeFood rawItems) (3/10)).recognizedItems.length = 0
    · simp [analyzePOST, hrec, hempty]
    rcases hest : o.estimateRaw with er | rawEsts
    · simp [analyzePOST, hrec, hempty, hest]
    rcases hrefl : o.reflectRaw with er | rawPrompts
    · simp [analyzePOST, hrec, hempty, hest, hrefl]
    · simp [analyzePOST, hrec, hempty, hest, hrefl, hnud]
  · intro p hok
    rcases hrec : o.recognizeRaw with er | rawItems
    · simp [analyzePOST, hrec] at hok
    by_cases hempty :
        (confidenceFilter (recognizeFood rawItems) (3/10)).recognizedItems.length = 0
    · simp [analyzePOST, hrec, hempty] at hok
    rcases hest : o.estimateRaw with er | rawEsts
    · simp [analyzePOST, hrec, hempty, hest] at hok
    rcases hrefl : o.reflectRaw with er | rawPrompts
    · simp [analyzePOST, hrec, hempty, hest, hrefl] at hok
    rcases hnud : o.nudgeRaw with er | rawNudges
    · simp [analyzePOST, hrec, hempty, hest, hrefl, hnud] at hok
    refine ⟨⟨rawPrompts, rfl⟩, ⟨rawNudges, rfl⟩, ?_, ?_⟩ <;>
      simp [analyzePOST, hrec, hempty, hest, hrefl, hnud]

/-- Witness for the amended C9: on the request whose reflection agent
throws, the nudge stage is never invoked. -/
theorem reflection_nudge_sequencing_amended_witness :
    decide (Stage.nudge ∈ (analyzePOST (some "img") oracleReflectFail).2) = false :=
  decide_eq_false
    (((reflection_nudge_sequencing_amended "img" oracleReflectFail).1
      "reflection failed" rfl).1)

end NutriLens
